import Mathlib

/-!
# Verification of the repair-shop Kanban backend (reparacionesfastapi)

Shallow embedding of the card-mutating route handlers of
`backend/app/api/routes/tarjetas.py`, the metrics SLA section of
`backend/app/api/routes/metricas.py`, and the TTL cache of
`backend/app/core/cache.py`, together with proofs of the behavioural
properties stated in the specification.

Modelling conventions:
* `datetime` values are modelled as `Int` seconds (only ordering and
  differences matter to the verified properties); `timedelta(hours=h)` is
  `h * 3600`.
* SQLAlchemy sessions follow the source configuration
  `sessionmaker(autocommit=False, autoflush=False)` and the `get_db`
  dependency, which closes (and hence rolls back) the session when a
  handler raises: a handler is a pure function from the committed database
  to `Except HttpError DB`, where `.ok` is the single `db.commit()` at the
  end of the handler and `.error` is an `HTTPException` raised before it,
  leaving the committed state untouched.  Because `autoflush=False`,
  `COUNT` queries issued mid-handler observe the committed snapshot, while
  object lookups go through the identity map and observe pending attribute
  writes; the batch handlers model both views explicitly.
* Pydantic's `exclude_unset` distinguishes an absent field from an
  explicit `null`; request fields with that behaviour are modelled as
  `Option (Option _)` (outer: present?, inner: the JSON value).
* String `.strip()` is modelled by an explicit whitespace-dropping function
  (`pyStrip`); SQL `ILIKE '%t%'` by case-insensitive substring containment.
* Side effects with no bearing on the claims (Socket.IO emits,
  notifications, S3 uploads, `db.refresh`) are omitted; float cost fields
  are modelled as integers (no claim computes with them).
-/

deriving instance DecidableEq for Except

namespace Reparaciones

/-- Timestamps, in seconds. -/
abbrev Time := Int

/-- The HTTP error outcomes the modelled handlers can raise. -/
inductive HttpError where
  | notFound       -- 404
  | badRequest     -- 400
  | internalError  -- 500 (unhandled exception)
deriving Repr, DecidableEq

/-- `models/repair_card.py`: the `repair_cards` table.  Nullable columns are
`Option`s; `blocked_at`/`blocked_reason`/`blocked_by` are the columns used by
the block endpoint and the metrics blocked-count query. -/
structure RepairCard where
  id : Nat
  owner_name : Option String
  whatsapp_number : Option String
  problem : Option String
  status : String
  start_date : Time
  due_date : Time
  image_url : Option String
  has_charger : Option String
  ingresado_date : Time
  diagnosticada_date : Option Time
  para_entregar_date : Option Time
  entregados_date : Option Time
  technical_notes : Option String
  priority : String
  position : Int
  assigned_to : Option Nat
  assigned_name : Option String
  estimated_cost : Option Int
  final_cost : Option Int
  cost_notes : Option String
  deleted_at : Option Time
  blocked_at : Option Time
  blocked_reason : Option String
  blocked_by : Option Nat
deriving Repr, DecidableEq

/-- `models/kanban.py`: the `kanban_columns` table (fields the routes read). -/
structure KanbanColumn where
  id : Nat
  key : String
  title : String
  position : Nat
  wip_limit : Option Nat
  sla_hours : Option Nat
  is_done_column : Bool
deriving Repr, DecidableEq

/-- `models/repair_card.py`: the `status_history` table. -/
structure StatusHistory where
  tarjeta_id : Nat
  old_status : Option String
  new_status : String
  changed_at : Time
  changed_by : Option Nat
  changed_by_name : Option String
deriving Repr, DecidableEq

/-- The relational state the card routes read and write.  `tagLinks` is the
`repair_card_tags` association table (card id, tag id); `users` carries the
`(id, full_name)` projection of the `users` table that the handlers query. -/
structure DB where
  cards : List RepairCard
  columns : List KanbanColumn
  history : List StatusHistory
  tagLinks : List (Nat × Nat)
  users : List (Nat × String)
deriving Repr, DecidableEq

/-- Insert a column into a list sorted by ascending `position`
(`order_by(KanbanColumn.position)`). -/
def insertByPos (c : KanbanColumn) : List KanbanColumn → List KanbanColumn
  | [] => [c]
  | d :: ds => if c.position ≤ d.position then c :: d :: ds else d :: insertByPos c ds

/-- Insertion sort by `position`, modelling the SQL `ORDER BY position`. -/
def orderByPosition (cols : List KanbanColumn) : List KanbanColumn :=
  cols.foldr insertByPos []

/-- `_get_valid_statuses`: the configured column keys, or the four built-in
statuses when no column rows exist. -/
def getValidStatuses (db : DB) : List String :=
  let cols := (orderByPosition db.columns).map (·.key)
  match cols with
  | [] => ["ingresado", "diagnosticada", "para_entregar", "listos"]
  | _ => cols

/-- The WIP-limit count: non-deleted cards in `status`, excluding card
`excludeId` (`RepairCard.status == nuevo, deleted_at IS NULL, id != id`). -/
def wipCount (cards : List RepairCard) (status : String) (excludeId : Nat) : Nat :=
  (cards.filter fun c =>
    c.status == status && c.deleted_at == none && c.id != excludeId).length

/-- `db.query(RepairCard).filter(RepairCard.id == id).first()`. -/
def findCard (cards : List RepairCard) (id : Nat) : Option RepairCard :=
  cards.find? (·.id == id)

/-- Write back a mutated ORM object: every row with the object's id takes the
new value (ids are unique in the real table). -/
def replaceCard (cards : List RepairCard) (t : RepairCard) : List RepairCard :=
  cards.map fun c => if c.id == t.id then t else c

/-- The stage-timestamp stamping chain shared by the three status-setting
handlers: `if nuevo == "diagnosticada" and not t.diagnosticada_date: ...
elif ... elif ...`.  A field is written only when it is `None`. -/
def stampStage (t : RepairCard) (nuevo : String) (now : Time) : RepairCard :=
  if nuevo == "diagnosticada" && t.diagnosticada_date == none then
    { t with diagnosticada_date := some now }
  else if nuevo == "para_entregar" && t.para_entregar_date == none then
    { t with para_entregar_date := some now }
  else if nuevo == "listos" && t.entregados_date == none then
    { t with entregados_date := some now }
  else t

/-- Python truthiness of `col.wip_limit` / `col.sla_hours`
(`None` and `0` are falsy). -/
def optNatTruthy : Option Nat → Bool
  | none => false
  | some n => n != 0

/-- `schemas/tarjeta.py` `TarjetaUpdate`, with pydantic `exclude_unset`
semantics: the outer `Option` is field presence, the inner one an explicit
`null`.  `fecha_limite` carries an already-parsed date (the handler's
`strptime`); `prioridad`/`posicion` carry present non-null values (a present
`null` would only die on the `NOT NULL` column at commit). -/
structure TarjetaUpdate where
  nombre_propietario : Option (Option String) := none
  problema : Option (Option String) := none
  whatsapp : Option (Option String) := none
  fecha_limite : Option Time := none
  imagen_url : Option (Option String) := none
  tiene_cargador : Option (Option String) := none
  notas_tecnicas : Option (Option String) := none
  columna : Option (Option String) := none
  prioridad : Option String := none
  posicion : Option Int := none
  asignado_a : Option (Option Nat) := none
  costo_estimado : Option (Option Int) := none
  costo_final : Option (Option Int) := none
  notas_costo : Option (Option String) := none
  tags : Option (Option (List Nat)) := none
deriving Repr, DecidableEq

/-- `s or None` for an optional string (empty string collapses to `None`). -/
def strOrNone : Option String → Option String
  | some s => if s == "" then none else some s
  | none => none

/-- `if "nombre_propietario" in upd: t.owner_name = upd["nombre_propietario"]`. -/
def updNombre (d : TarjetaUpdate) (t : RepairCard) : RepairCard :=
  match d.nombre_propietario with
  | some v => { t with owner_name := v }
  | none => t

/-- `if "problema" in upd: t.problem = upd["problema"]`. -/
def updProblema (d : TarjetaUpdate) (t : RepairCard) : RepairCard :=
  match d.problema with
  | some v => { t with problem := v }
  | none => t

/-- `if "whatsapp" in upd: t.whatsapp_number = upd["whatsapp"]`. -/
def updWhatsapp (d : TarjetaUpdate) (t : RepairCard) : RepairCard :=
  match d.whatsapp with
  | some v => { t with whatsapp_number := v }
  | none => t

/-- `if "fecha_limite" in upd: t.due_date = strptime(...)`. -/
def updFechaLimite (d : TarjetaUpdate) (t : RepairCard) : RepairCard :=
  match d.fecha_limite with
  | some v => { t with due_date := v }
  | none => t

/-- `if "imagen_url" in upd: ... t.image_url = new_img or None` (the S3
upload of a `data:` URL is abstracted to storing the value). -/
def updImagen (d : TarjetaUpdate) (t : RepairCard) : RepairCard :=
  match d.imagen_url with
  | some v => { t with image_url := strOrNone v }
  | none => t

/-- `if "tiene_cargador" in upd: t.has_charger = upd["tiene_cargador"]`. -/
def updCargador (d : TarjetaUpdate) (t : RepairCard) : RepairCard :=
  match d.tiene_cargador with
  | some v => { t with has_charger := v }
  | none => t

/-- `if "notas_tecnicas" in upd: t.technical_notes = upd["notas_tecnicas"] or None`. -/
def updNotasTecnicas (d : TarjetaUpdate) (t : RepairCard) : RepairCard :=
  match d.notas_tecnicas with
  | some v => { t with technical_notes := strOrNone v }
  | none => t

/-- `if "prioridad" in upd: t.priority = upd["prioridad"]`. -/
def updPrioridad (d : TarjetaUpdate) (t : RepairCard) : RepairCard :=
  match d.prioridad with
  | some v => { t with priority := v }
  | none => t

/-- `if "posicion" in upd: t.position = upd["posicion"]`. -/
def updPosicion (d : TarjetaUpdate) (t : RepairCard) : RepairCard :=
  match d.posicion with
  | some v => { t with position := v }
  | none => t

/-- `if "asignado_a" in upd:` — sets `assigned_to`, and `assigned_name` from
the `users` table when the value is truthy (non-null, non-zero). -/
def updAsignado (d : TarjetaUpdate) (db : DB) (t : RepairCard) : RepairCard :=
  match d.asignado_a with
  | some a =>
    let t := { t with assigned_to := a }
    match a with
    | some uid =>
      if uid ≠ 0 then
        { t with assigned_name := (db.users.find? (·.1 == uid)).map (·.2) }
      else { t with assigned_name := none }
    | none => { t with assigned_name := none }
  | none => t

/-- `if "costo_estimado" in upd: t.estimated_cost = upd["costo_estimado"]`. -/
def updCostoEstimado (d : TarjetaUpdate) (t : RepairCard) : RepairCard :=
  match d.costo_estimado with
  | some v => { t with estimated_cost := v }
  | none => t

/-- `if "costo_final" in upd: t.final_cost = upd["costo_final"]`. -/
def updCostoFinal (d : TarjetaUpdate) (t : RepairCard) : RepairCard :=
  match d.costo_final with
  | some v => { t with final_cost := v }
  | none => t

/-- `if "notas_costo" in upd: t.cost_notes = upd["notas_costo"]`. -/
def updNotasCosto (d : TarjetaUpdate) (t : RepairCard) : RepairCard :=
  match d.notas_costo with
  | some v => { t with cost_notes := v }
  | none => t

/-- The field-by-field `if "x" in upd:` block of `update_tarjeta`, everything
before the `columna` block, in source order. -/
def applySimpleFields (t : RepairCard) (data : TarjetaUpdate) (db : DB) : RepairCard :=
  updNotasCosto data (updCostoFinal data (updCostoEstimado data
    (updAsignado data db (updPosicion data (updPrioridad data
      (updNotasTecnicas data (updCargador data (updImagen data
        (updFechaLimite data (updWhatsapp data (updProblema data
          (updNombre data t))))))))))))

/-- The tag-replacement block: delete the card's links, then insert each
requested tag (a duplicate-key failure is swallowed by `try/except: pass`,
modelled by skipping an already-present link). -/
def replaceTags (links : List (Nat × Nat)) (cardId : Nat) (tagIds : List Nat) :
    List (Nat × Nat) :=
  let cleared := links.filter (·.1 ≠ cardId)
  tagIds.foldl
    (fun acc tagId => if (cardId, tagId) ∈ acc then acc else acc ++ [(cardId, tagId)])
    cleared

/-- `t.status = nuevo` followed by the stage-stamping chain, the common tail
of the status-changing handlers. -/
def setStatusStamped (t : RepairCard) (nuevo : String) (now : Time) : RepairCard :=
  stampStage { t with status := nuevo } nuevo now

/-- The WIP-limit guard shared by `update_tarjeta` and
`batch_update_positions`: `col = db.query(KanbanColumn).filter(key == nuevo)`
and `if col and col.wip_limit:` with the count of other non-deleted cards in
the target column (the `COUNT` runs against the committed snapshot because
`autoflush=False`). -/
def wipBlockedB (db : DB) (nuevo : String) (id : Nat) : Bool :=
  match db.columns.find? (·.key == nuevo) with
  | some c => match c.wip_limit with
    | some w => w != 0 && decide (w ≤ wipCount db.cards nuevo id)
    | none => false
  | none => false

/-- The history append of `update_tarjeta`: one `StatusHistory` row, only
when the status actually changes. -/
def histAfter (db : DB) (t1 : RepairCard) (nuevo : String) (now : Time)
    (user : Option (Nat × String)) : List StatusHistory :=
  if t1.status ≠ nuevo then
    db.history ++ [{ tarjeta_id := t1.id, old_status := some t1.status,
                     new_status := nuevo, changed_at := now,
                     changed_by := user.map (·.1),
                     changed_by_name := user.map (·.2) }]
  else db.history

/-- The tag block of `update_tarjeta`
(`if "tags" in upd and upd["tags"] is not None:`). -/
def linksAfter (db : DB) (data : TarjetaUpdate) (cardId : Nat) : List (Nat × Nat) :=
  match data.tags with
  | some (some tagIds) => replaceTags db.tagLinks cardId tagIds
  | _ => db.tagLinks

/-- `PUT /api/tarjetas/{id}` (`update_tarjeta`).  The simple-field and tag
writes happen on the open session first; the `columna` block then validates
the target status and the WIP limit, raising `400` before anything is
committed; the single `db.commit()` is the `.ok` result. -/
def update_tarjeta (db : DB) (id : Nat) (data : TarjetaUpdate) (now : Time)
    (user : Option (Nat × String)) : Except HttpError DB :=
  match findCard db.cards id with
  | none => .error .notFound
  | some t0 =>
    let t1 := applySimpleFields t0 data db
    let links := linksAfter db data t1.id
    match data.columna with
    | none =>
      .ok { db with cards := replaceCard db.cards t1, tagLinks := links }
    | some nuevoOpt =>
      match nuevoOpt with
      | none => .error .badRequest    -- `None not in valid_statuses`
      | some nuevo =>
        if nuevo ∈ getValidStatuses db then
          if wipBlockedB db nuevo id then .error .badRequest
          else
            let t2 := setStatusStamped t1 nuevo now
            .ok { db with cards := replaceCard db.cards t2,
                          history := histAfter db t1 nuevo now user,
                          tagLinks := links }
        else .error .badRequest

/-- `schemas/tarjeta.py` `TarjetaCreate` with its pydantic defaults (an empty
request body yields exactly this record).  `fecha_limite` is the parsed date. -/
structure TarjetaCreate where
  nombre_propietario : Option String := some "Cliente"
  problema : Option String := some "Sin descripción"
  whatsapp : Option String := some ""
  fecha_limite : Option Time := none
  imagen_url : Option String := none
  tiene_cargador : Option String := some "si"
  notas_tecnicas : Option String := none
  prioridad : Option String := some "media"
  asignado_a : Option Nat := none
  costo_estimado : Option Int := none
  tags : Option (List Nat) := none
deriving Repr, DecidableEq

/-- Python `str.strip()`: drop leading and trailing whitespace. -/
def pyStrip (s : String) : String :=
  ⟨((s.data.dropWhile Char.isWhitespace).reverse.dropWhile Char.isWhitespace).reverse⟩

/-- `(x or "").strip() or dflt`. -/
def strippedOrDefault (v : Option String) (dflt : String) : String :=
  let s := pyStrip (v.getD "")
  if s == "" then dflt else s

/-- `MAX(position)` over non-deleted cards in `"ingresado"`, with the
handler's `scalar() or 0`. -/
def maxPosIngresado (cards : List RepairCard) : Int :=
  (((cards.filter fun c => c.status == "ingresado" && c.deleted_at == none).map
      (·.position)).max?).getD 0

/-- Autoincrement primary key for a fresh row. -/
def nextId (cards : List RepairCard) : Nat :=
  (cards.map (·.id)).foldl max 0 + 1

/-- `POST /api/tarjetas` (`create_tarjeta`), without the S3/media-v2
bootstrap (the stored `imagen_url` is the request value).  Returns the new
database and the created card. -/
def create_tarjeta (db : DB) (data : TarjetaCreate) (now : Time) : DB × RepairCard :=
  let nombre := strippedOrDefault data.nombre_propietario "Cliente"
  let problema := strippedOrDefault data.problema "Sin descripción"
  let whatsapp := strippedOrDefault data.whatsapp ""
  let due_dt := match data.fecha_limite with
    | none => now + 86400        -- now + timedelta(days=1)
    | some d => d                -- datetime.combine(fecha_limite, time.min)
  let assigned_name := match data.asignado_a with
    | some uid =>
      if uid ≠ 0 then (db.users.find? (·.1 == uid)).map (·.2) else none
    | none => none
  let max_pos := maxPosIngresado db.cards
  let t : RepairCard := {
    id := nextId db.cards
    owner_name := some nombre
    problem := some problema
    whatsapp_number := some whatsapp
    start_date := now
    due_date := due_dt
    status := "ingresado"
    ingresado_date := now
    image_url := data.imagen_url
    has_charger := some ((strOrNone data.tiene_cargador).getD "si")
    technical_notes := none
    priority := (strOrNone data.prioridad).getD "media"
    position := max_pos + 1
    assigned_to := data.asignado_a
    assigned_name := assigned_name
    estimated_cost := data.costo_estimado
    final_cost := none
    cost_notes := none
    diagnosticada_date := none
    para_entregar_date := none
    entregados_date := none
    deleted_at := none
    blocked_at := none
    blocked_reason := none
    blocked_by := none }
  let links := match data.tags with
    | some tagIds =>
      tagIds.foldl
        (fun acc tagId => if (t.id, tagId) ∈ acc then acc else acc ++ [(t.id, tagId)])
        db.tagLinks
    | none => db.tagLinks
  ({ db with cards := db.cards ++ [t], tagLinks := links }, t)

/-- `schemas/tarjeta.py` `PosicionUpdate` (`posicion` is `ge=0`). -/
structure PosItem where
  id : Nat
  columna : String
  posicion : Nat
deriving Repr, DecidableEq

/-- One iteration of the `batch_update_positions` loop.  `db0` is the
committed snapshot (with `autoflush=False` the WIP `COUNT` query sees only
committed rows); `acc` is the open session with the pending writes of the
earlier items (object lookups go through the identity map). -/
def batchPosStep (db0 : DB) (now : Time) (acc : DB) (item : PosItem) :
    Except HttpError DB :=
  match findCard acc.cards item.id with
  | none => .ok acc
  | some t =>
    let old_status := t.status
    let t := { t with position := (item.posicion : Int) }
    if t.status ≠ item.columna then
      if wipBlockedB db0 item.columna item.id then .error .badRequest
      else
        let t := setStatusStamped t item.columna now
        .ok { acc with
              cards := replaceCard acc.cards t,
              history := acc.history ++ [{ tarjeta_id := t.id,
                                           old_status := some old_status,
                                           new_status := item.columna,
                                           changed_at := now,
                                           changed_by := none,
                                           changed_by_name := none }] }
    else .ok { acc with cards := replaceCard acc.cards t }

/-- `PUT /api/tarjetas/batch/positions` (`batch_update_positions`): the loop
runs on one session and one `db.commit()` follows it, so a WIP-limit
`HTTPException` on any item rolls back the whole request. -/
def batch_update_positions (db : DB) (items : List PosItem) (now : Time) :
    Except HttpError DB :=
  items.foldlM (batchPosStep db now) db

/-- One iteration of the `batch_operations` loop over the selected cards.
`t` is the ORM object as currently held by the session `acc`. -/
def batchOpStep (userName assignName : String) (now : Time)
    (action : String) (value : Option String) (acc : Except HttpError DB)
    (t : RepairCard) : Except HttpError DB := do
  let acc ← acc
  let t := (findCard acc.cards t.id).getD t
  if action == "move" && (value.getD "") != "" then
    let v := value.getD ""
    let old_status := t.status
    let t := setStatusStamped t v now
    return { acc with
             cards := replaceCard acc.cards t,
             history := acc.history ++ [{ tarjeta_id := t.id,
                                          old_status := some old_status,
                                          new_status := v,
                                          changed_at := now,
                                          changed_by := none,
                                          changed_by_name := some userName }] }
  else if action == "assign" && value.isSome then
    let v := value.getD ""
    if v == "" then
      let t := { t with assigned_to := none, assigned_name := some assignName }
      return { acc with cards := replaceCard acc.cards t }
    else
      match v.toNat? with
      | none => throw .internalError   -- `int(value)` raises ValueError
      | some uid =>
        let t := { t with assigned_to := some uid, assigned_name := some assignName }
        return { acc with cards := replaceCard acc.cards t }
  else if action == "priority" && (value.getD "") != "" then
    let t := { t with priority := value.getD "" }
    return { acc with cards := replaceCard acc.cards t }
  else if action == "delete" then
    let t := { t with deleted_at := some now }
    return { acc with cards := replaceCard acc.cards t }
  else if action == "tag" && value.isSome then
    match (value.getD "").toNat? with
    | none => throw .internalError
    | some tagId =>
      if (t.id, tagId) ∈ acc.tagLinks then return acc
      else return { acc with tagLinks := acc.tagLinks ++ [(t.id, tagId)] }
  else
    return acc

/-- `POST /api/tarjetas/batch` (`batch_operations`).  The handler takes a raw
`dict`: `action` is an arbitrary string and the `"move"` branch neither
validates `value` against the configured columns nor checks any WIP limit,
and it appends a `StatusHistory` row unconditionally.  `userName` and
`assignName` are `body.get("user_name", "Batch")` / `body.get("assign_name", "")`. -/
def batch_operations (db : DB) (ids : List Nat) (action : String)
    (value : Option String) (userName assignName : String) (now : Time) :
    Except HttpError DB :=
  if ids = [] ∨ action = "" then .error .badRequest
  else
    let cards := db.cards.filter (·.id ∈ ids)
    if cards = [] then .error .notFound
    else cards.foldl (batchOpStep userName assignName now action value) (.ok db)

/-- `PATCH /api/tarjetas/{id}/block` (`block_tarjeta`). -/
def block_tarjeta (db : DB) (id : Nat) (blocked : Bool) (reason : Option String)
    (userId : Option Nat) (now : Time) : Except HttpError DB :=
  match findCard db.cards id with
  | none => .error .notFound
  | some t =>
    let t := if blocked then
        { t with blocked_at := some now, blocked_reason := some (reason.getD ""),
                 blocked_by := userId }
      else
        { t with blocked_at := none, blocked_reason := none, blocked_by := none }
    .ok { db with cards := replaceCard db.cards t }

/-- `DELETE /api/tarjetas/{id}` (`delete_tarjeta`): soft delete. -/
def delete_tarjeta (db : DB) (id : Nat) (now : Time) : Except HttpError DB :=
  match findCard db.cards id with
  | none => .error .notFound
  | some t =>
    let t := { t with deleted_at := some now }
    .ok { db with cards := replaceCard db.cards t }

/-- `PUT /api/tarjetas/{id}/restore` (`restore_tarjeta`). -/
def restore_tarjeta (db : DB) (id : Nat) : Except HttpError DB :=
  match findCard db.cards id with
  | none => .error .notFound
  | some t =>
    let t := { t with deleted_at := none }
    .ok { db with cards := replaceCard db.cards t }

/-! ## The TTL cache (`core/cache.py`) and the endpoint wrappers -/

/-- The in-process cache: `key ↦ (value, expires)`.  Cached values are
abstracted to `Nat` snapshot identifiers. -/
abbrev Cache := List (String × Nat × Time)

/-- `get_cached(key, ttl)`: an entry is served while `time.time() < expires`
(the eager deletion of an expired entry is garbage collection only and does
not change any later read). -/
def get_cached (c : Cache) (key : String) (now : Time) : Option Nat :=
  match c.find? (·.1 == key) with
  | some (_, v, expires) => if now < expires then some v else none
  | none => none

/-- `set_cached(key, value, ttl)`. -/
def set_cached (c : Cache) (key : String) (v : Nat) (now ttl : Time) : Cache :=
  c.filter (·.1 ≠ key) ++ [(key, v, now + ttl)]

/-- `invalidate_stats()`: deletes the single key `STATS_KEY = "estadisticas"`
and nothing else. -/
def invalidate_stats (c : Cache) : Cache :=
  c.filter (·.1 ≠ "estadisticas")

/-- The cache key `f"metricas_kanban_{dias}"` used by `GET /api/metricas/kanban`. -/
def metricasCacheKey (dias : Nat) : String :=
  "metricas_kanban_" ++ toString dias

/-- An HTTP response: the committed database, the cache, and the error (if
any).  A raised `HTTPException` reaches `get_db`'s `finally: db.close()`,
which rolls the open transaction back, so the committed state is the input. -/
structure Response where
  db : DB
  cache : Cache
  error : Option HttpError
deriving Repr, DecidableEq

/-- `PUT /api/tarjetas/{id}` at the transaction boundary: on success the
handler commits and then calls `invalidate_stats()`; on an `HTTPException`
nothing was committed and the cache is untouched. -/
def update_tarjeta_endpoint (db : DB) (cache : Cache) (id : Nat)
    (data : TarjetaUpdate) (now : Time) (user : Option (Nat × String)) : Response :=
  match update_tarjeta db id data now user with
  | .ok db' => ⟨db', invalidate_stats cache, none⟩
  | .error e => ⟨db, cache, some e⟩

/-- `PATCH /api/tarjetas/{id}/block` at the transaction boundary: the handler
commits but — unlike every other card mutation — never calls
`invalidate_stats()`. -/
def block_tarjeta_endpoint (db : DB) (cache : Cache) (id : Nat) (blocked : Bool)
    (reason : Option String) (userId : Option Nat) (now : Time) : Response :=
  match block_tarjeta db id blocked reason userId now with
  | .ok db' => ⟨db', cache, none⟩
  | .error e => ⟨db, cache, some e⟩

/-- `DELETE /api/tarjetas/{id}` at the transaction boundary. -/
def delete_tarjeta_endpoint (db : DB) (cache : Cache) (id : Nat) (now : Time) :
    Response :=
  match delete_tarjeta db id now with
  | .ok db' => ⟨db', invalidate_stats cache, none⟩
  | .error e => ⟨db, cache, some e⟩

/-- `PUT /api/tarjetas/{id}/restore` at the transaction boundary. -/
def restore_tarjeta_endpoint (db : DB) (cache : Cache) (id : Nat) : Response :=
  match restore_tarjeta db id with
  | .ok db' => ⟨db', invalidate_stats cache, none⟩
  | .error e => ⟨db, cache, some e⟩

/-! ## Card listings (`get_tarjetas`, `get_trash`) -/

/-- Case-insensitive substring containment, modelling `ILIKE '%term%'`
(`NULL` text never matches). -/
def containsCI (s pat : String) : Bool :=
  (s.toLower.splitOn pat.toLower).length != 1

/-- The optional server-side filters of `GET /api/tarjetas`.  Date bounds
carry parsed datetimes. -/
structure ListFilters where
  search : Option String := none
  estado : Option String := none
  prioridad : Option String := none
  asignado_a : Option Nat := none
  tag : Option Nat := none
  fecha_desde : Option Time := none
  fecha_hasta : Option Time := none
  cargador : Option String := none
deriving Repr, DecidableEq

/-- Truthiness of an optional string query parameter (`if search:`). -/
def optStrTruthy : Option String → Bool
  | none => false
  | some s => s != ""

/-- Whether a card passes the filter chain of `GET /api/tarjetas` for the
given `include_deleted` flag and filters. -/
def passesFilters (db : DB) (includeDeleted : Bool) (f : ListFilters)
    (c : RepairCard) : Bool :=
  (includeDeleted || c.deleted_at == none) &&
  (match f.search with
   | some s =>
     if s != "" then
       containsCI (c.owner_name.getD "") s || containsCI (c.problem.getD "") s ||
       containsCI (c.whatsapp_number.getD "") s ||
       containsCI (c.technical_notes.getD "") s
     else true
   | none => true) &&
  (match f.estado with
   | some e => if e != "" then c.status == e else true
   | none => true) &&
  (match f.prioridad with
   | some p => if p != "" then c.priority == p else true
   | none => true) &&
  (match f.asignado_a with
   | some a => c.assigned_to == some a     -- `is not None` guard, then equality
   | none => true) &&
  (match f.cargador with
   | some g => if g != "" then c.has_charger == some g else true
   | none => true) &&
  (match f.fecha_desde with
   | some d => decide (d ≤ c.start_date)
   | none => true) &&
  (match f.fecha_hasta with
   | some d => decide (c.start_date ≤ d)
   | none => true) &&
  (match f.tag with
   | some tg => db.tagLinks.any fun l => l.1 == c.id && l.2 == tg
   | none => true)

/-- Insert a card into a list ordered by `position ASC, start_date DESC`. -/
def insertCardOrd (c : RepairCard) : List RepairCard → List RepairCard
  | [] => [c]
  | d :: ds =>
    if c.position < d.position ∨ (c.position = d.position ∧ d.start_date ≤ c.start_date)
    then c :: d :: ds
    else d :: insertCardOrd c ds

/-- Insertion sort modelling `ORDER BY position ASC, start_date DESC`. -/
def orderCards (cards : List RepairCard) : List RepairCard :=
  cards.foldr insertCardOrd []

/-- The rows returned by `GET /api/tarjetas` on the unpaginated path
(`page` and `per_page` absent): the filter chain plus the `ORDER BY`. -/
def get_tarjetas_items (db : DB) (includeDeleted : Bool) (f : ListFilters) :
    List RepairCard :=
  orderCards (db.cards.filter (passesFilters db includeDeleted f))

/-- `GET /api/tarjetas/trash/list` (`get_trash`): rows with
`deleted_at IS NOT NULL` (ordering by `deleted_at DESC` is immaterial to the
membership properties and is omitted). -/
def get_trash_items (db : DB) : List RepairCard :=
  db.cards.filter (·.deleted_at != none)

/-! ## SLA violations (`GET /api/metricas/kanban`, section 5) -/

/-- One row of the `sla_violations` output (the display-only
`horas_en_columna` value is omitted). -/
structure SlaViolation where
  tarjeta_id : Nat
  nombre : Option String
  columna : String
  sla_horas : Nat
deriving Repr, DecidableEq

/-- The `date_field_map` of the SLA section: only the three keys
`"ingresado"`, `"diagnosticada"`, `"para_entregar"` have a stage-date column;
every other key (including `"listos"`) maps to nothing and the column is
skipped. -/
def slaDateField (key : String) : Option (RepairCard → Option Time) :=
  if key == "ingresado" then some (fun c => some c.ingresado_date)
  else if key == "diagnosticada" then some (fun c => c.diagnosticada_date)
  else if key == "para_entregar" then some (fun c => c.para_entregar_date)
  else none

/-- The SLA-violation list of `get_kanban_metrics`: for each column with a
truthy `sla_hours` and a mapped key, the non-deleted cards currently in that
column whose stage timestamp is set and older than
`now - timedelta(hours=sla_hours)`. -/
def slaViolations (db : DB) (now : Time) : List SlaViolation :=
  (db.columns.filter fun col => col.sla_hours ≠ none).flatMap fun col =>
    match col.sla_hours with
    | none => []
    | some h =>
      if h = 0 then []                       -- `if not col.sla_hours: continue`
      else match slaDateField col.key with
      | none => []                           -- `if date_field is None: continue`
      | some dateOf =>
        let threshold := now - (h : Int) * 3600
        ((db.cards.filter fun c =>
            c.deleted_at == none && c.status == col.key &&
            (dateOf c).isSome && decide ((dateOf c).getD 0 < threshold)).map
          fun c => { tarjeta_id := c.id, nombre := c.owner_name,
                     columna := col.title, sla_horas := h })

/-! ## Helper lemmas -/

/-- The projections of a card that no simple-field update may touch: the
status, the three stage timestamps, the primary key and the tombstone. -/
def coreEq (a b : RepairCard) : Prop :=
  a.status = b.status ∧ a.diagnosticada_date = b.diagnosticada_date ∧
  a.para_entregar_date = b.para_entregar_date ∧
  a.entregados_date = b.entregados_date ∧ a.id = b.id ∧ a.deleted_at = b.deleted_at

lemma coreEq_refl (a : RepairCard) : coreEq a a :=
  ⟨rfl, rfl, rfl, rfl, rfl, rfl⟩

lemma coreEq_trans {a b c : RepairCard} (h₁ : coreEq a b) (h₂ : coreEq b c) :
    coreEq a c := by
  obtain ⟨s₁, d₁, p₁, e₁, i₁, x₁⟩ := h₁
  obtain ⟨s₂, d₂, p₂, e₂, i₂, x₂⟩ := h₂
  exact ⟨s₁.trans s₂, d₁.trans d₂, p₁.trans p₂, e₁.trans e₂, i₁.trans i₂, x₁.trans x₂⟩

lemma updNombre_coreEq (d : TarjetaUpdate) (t : RepairCard) :
    coreEq (updNombre d t) t := by
  unfold updNombre; cases d.nombre_propietario <;> exact coreEq_refl _

lemma updProblema_coreEq (d : TarjetaUpdate) (t : RepairCard) :
    coreEq (updProblema d t) t := by
  unfold updProblema; cases d.problema <;> exact coreEq_refl _

lemma updWhatsapp_coreEq (d : TarjetaUpdate) (t : RepairCard) :
    coreEq (updWhatsapp d t) t := by
  unfold updWhatsapp; cases d.whatsapp <;> exact coreEq_refl _

lemma updFechaLimite_coreEq (d : TarjetaUpdate) (t : RepairCard) :
    coreEq (updFechaLimite d t) t := by
  unfold updFechaLimite; cases d.fecha_limite <;> exact coreEq_refl _

lemma updImagen_coreEq (d : TarjetaUpdate) (t : RepairCard) :
    coreEq (updImagen d t) t := by
  unfold updImagen; cases d.imagen_url <;> exact coreEq_refl _

lemma updCargador_coreEq (d : TarjetaUpdate) (t : RepairCard) :
    coreEq (updCargador d t) t := by
  unfold updCargador; cases d.tiene_cargador <;> exact coreEq_refl _

lemma updNotasTecnicas_coreEq (d : TarjetaUpdate) (t : RepairCard) :
    coreEq (updNotasTecnicas d t) t := by
  unfold updNotasTecnicas; cases d.notas_tecnicas <;> exact coreEq_refl _

lemma updPrioridad_coreEq (d : TarjetaUpdate) (t : RepairCard) :
    coreEq (updPrioridad d t) t := by
  unfold updPrioridad; cases d.prioridad <;> exact coreEq_refl _

lemma updPosicion_coreEq (d : TarjetaUpdate) (t : RepairCard) :
    coreEq (updPosicion d t) t := by
  unfold updPosicion; cases d.posicion <;> exact coreEq_refl _

lemma updAsignado_coreEq (d : TarjetaUpdate) (db : DB) (t : RepairCard) :
    coreEq (updAsignado d db t) t := by
  unfold updAsignado coreEq
  repeat' split
  all_goals exact ⟨rfl, rfl, rfl, rfl, rfl, rfl⟩

lemma updCostoEstimado_coreEq (d : TarjetaUpdate) (t : RepairCard) :
    coreEq (updCostoEstimado d t) t := by
  unfold updCostoEstimado; cases d.costo_estimado <;> exact coreEq_refl _

lemma updCostoFinal_coreEq (d : TarjetaUpdate) (t : RepairCard) :
    coreEq (updCostoFinal d t) t := by
  unfold updCostoFinal; cases d.costo_final <;> exact coreEq_refl _

lemma updNotasCosto_coreEq (d : TarjetaUpdate) (t : RepairCard) :
    coreEq (updNotasCosto d t) t := by
  unfold updNotasCosto; cases d.notas_costo <;> exact coreEq_refl _

/-- The simple-field block never touches the status, the stage timestamps,
the id or the tombstone. -/
lemma applySimpleFields_coreEq (t : RepairCard) (d : TarjetaUpdate) (db : DB) :
    coreEq (applySimpleFields t d db) t := by
  unfold applySimpleFields
  exact coreEq_trans (updNotasCosto_coreEq ..) (coreEq_trans (updCostoFinal_coreEq ..)
    (coreEq_trans (updCostoEstimado_coreEq ..) (coreEq_trans (updAsignado_coreEq ..)
      (coreEq_trans (updPosicion_coreEq ..) (coreEq_trans (updPrioridad_coreEq ..)
        (coreEq_trans (updNotasTecnicas_coreEq ..) (coreEq_trans (updCargador_coreEq ..)
          (coreEq_trans (updImagen_coreEq ..) (coreEq_trans (updFechaLimite_coreEq ..)
            (coreEq_trans (updWhatsapp_coreEq ..) (coreEq_trans (updProblema_coreEq ..)
              (updNombre_coreEq ..))))))))))))

lemma applySimpleFields_status (t : RepairCard) (d : TarjetaUpdate) (db : DB) :
    (applySimpleFields t d db).status = t.status :=
  (applySimpleFields_coreEq t d db).1

lemma applySimpleFields_id (t : RepairCard) (d : TarjetaUpdate) (db : DB) :
    (applySimpleFields t d db).id = t.id :=
  (applySimpleFields_coreEq t d db).2.2.2.2.1

/-- `stampStage` never changes the status, the id or the tombstone. -/
lemma stampStage_status (t : RepairCard) (v : String) (now : Time) :
    (stampStage t v now).status = t.status ∧ (stampStage t v now).id = t.id ∧
    (stampStage t v now).deleted_at = t.deleted_at := by
  unfold stampStage
  repeat' split
  all_goals exact ⟨rfl, rfl, rfl⟩

/-- `findCard` returns a member of the list carrying the requested id. -/
lemma findCard_mem {cards : List RepairCard} {id : Nat} {t : RepairCard}
    (h : findCard cards id = some t) : t ∈ cards ∧ t.id = id := by
  unfold findCard at h
  refine ⟨List.mem_of_find?_eq_some h, ?_⟩
  have := List.find?_some h
  simpa using this

/-- Every element of `replaceCard cards t` is `t` or an original element. -/
lemma mem_replaceCard {cards : List RepairCard} {t c' : RepairCard}
    (h : c' ∈ replaceCard cards t) : c' = t ∨ c' ∈ cards := by
  unfold replaceCard at h
  obtain ⟨d, hd, hif⟩ := List.mem_map.mp h
  by_cases heq : d.id == t.id
  · left; rw [if_pos heq] at hif; exact hif.symm
  · right; rw [if_neg heq] at hif; exact hif ▸ hd

/-- `replaceCard` does not change the multiset of ids as long as the new
object keeps the id of the rows it replaces. -/
lemma map_id_replaceCard (cards : List RepairCard) (t : RepairCard) :
    (replaceCard cards t).map (·.id) = cards.map (·.id) := by
  unfold replaceCard
  rw [List.map_map]
  apply List.map_congr_left
  intro c _
  simp only [Function.comp_apply]
  by_cases heq : c.id == t.id
  · rw [if_pos heq]
    have h : c.id = t.id := by simpa using heq
    exact h.symm
  · rw [if_neg heq]

/-- On a table with unique primary keys, writing back the mutated object `t`
maps the row that had `t`'s id to `t` and leaves every other row unchanged:
a surviving row with the id of an original row `c` is `t` (if `c` was the
written row) or `c` itself. -/
lemma replaceCard_pair {cards : List RepairCard}
    (hnd : (cards.map (·.id)).Nodup) {t c c' : RepairCard}
    (hc : c ∈ cards) (hc' : c' ∈ replaceCard cards t) (hid : c'.id = c.id) :
    (c' = t ∧ c.id = t.id) ∨ (c' = c ∧ c.id ≠ t.id) := by
  unfold replaceCard at hc'
  obtain ⟨d, hd, hif⟩ := List.mem_map.mp hc'
  by_cases hdt : d.id == t.id
  · rw [if_pos hdt] at hif
    subst hif
    have hdt' : d.id = t.id := by simpa using hdt
    have hdc : d = c := List.inj_on_of_nodup_map hnd hd hc (by rw [hdt', hid])
    left
    exact ⟨rfl, by rw [← hdc, hdt']⟩
  · rw [if_neg hdt] at hif
    subst hif
    right
    have hdc : d = c := List.inj_on_of_nodup_map hnd hd hc hid
    refine ⟨hdc, ?_⟩
    rw [← hdc]
    simpa using hdt

/-- The stage-timestamp discipline between a card before an operation and the
same card after it: a non-null stage timestamp is carried over unchanged, and
a null one either stays null or is stamped with the operation's clock. -/
def stampsOk (now : Time) (c c' : RepairCard) : Prop :=
  (c.diagnosticada_date ≠ none → c'.diagnosticada_date = c.diagnosticada_date) ∧
  (c.diagnosticada_date = none →
    c'.diagnosticada_date = none ∨ c'.diagnosticada_date = some now) ∧
  (c.para_entregar_date ≠ none → c'.para_entregar_date = c.para_entregar_date) ∧
  (c.para_entregar_date = none →
    c'.para_entregar_date = none ∨ c'.para_entregar_date = some now) ∧
  (c.entregados_date ≠ none → c'.entregados_date = c.entregados_date) ∧
  (c.entregados_date = none →
    c'.entregados_date = none ∨ c'.entregados_date = some now)

lemma stampsOk_refl (now : Time) (c : RepairCard) : stampsOk now c c :=
  ⟨fun _ => rfl, fun h => Or.inl h, fun _ => rfl, fun h => Or.inl h,
   fun _ => rfl, fun h => Or.inl h⟩

lemma stampsOk_trans {now : Time} {a b c : RepairCard}
    (h₁ : stampsOk now a b) (h₂ : stampsOk now b c) : stampsOk now a c := by
  obtain ⟨d₁, d₁', p₁, p₁', e₁, e₁'⟩ := h₁
  obtain ⟨d₂, d₂', p₂, p₂', e₂, e₂'⟩ := h₂
  refine ⟨?_, ?_, ?_, ?_, ?_, ?_⟩
  · intro h; rw [← d₁ h]; exact d₂ (by rw [d₁ h]; exact h)
  · intro h
    rcases d₁' h with hb | hb
    · rcases d₂' hb with hc | hc
      · exact Or.inl hc
      · exact Or.inr hc
    · right; rw [d₂ (by rw [hb]; simp), hb]
  · intro h; rw [← p₁ h]; exact p₂ (by rw [p₁ h]; exact h)
  · intro h
    rcases p₁' h with hb | hb
    · rcases p₂' hb with hc | hc
      · exact Or.inl hc
      · exact Or.inr hc
    · right; rw [p₂ (by rw [hb]; simp), hb]
  · intro h; rw [← e₁ h]; exact e₂ (by rw [e₁ h]; exact h)
  · intro h
    rcases e₁' h with hb | hb
    · rcases e₂' hb with hc | hc
      · exact Or.inl hc
      · exact Or.inr hc
    · right; rw [e₂ (by rw [hb]; simp), hb]

/-- Two cards with the same stage timestamps satisfy `stampsOk`, whatever
else changed. -/
lemma stampsOk_of_eq {now : Time} {c c' : RepairCard}
    (hd : c'.diagnosticada_date = c.diagnosticada_date)
    (hp : c'.para_entregar_date = c.para_entregar_date)
    (he : c'.entregados_date = c.entregados_date) : stampsOk now c c' :=
  ⟨fun _ => hd, fun h => Or.inl (hd.trans h), fun _ => hp,
   fun h => Or.inl (hp.trans h), fun _ => he, fun h => Or.inl (he.trans h)⟩

/-- `stampStage` obeys the stage-timestamp discipline. -/
lemma stampStage_stampsOk (t : RepairCard) (v : String) (now : Time) :
    stampsOk now t (stampStage t v now) := by
  unfold stampStage stampsOk
  repeat' split
  all_goals refine ⟨?_, ?_, ?_, ?_, ?_, ?_⟩ <;> intro h <;> simp_all

/-- What a `stampStage` change means: a stage timestamp differs only if the
named status is the matching stage, the field was null, and it is now the
operation's clock.  The status itself is untouched. -/
lemma stampStage_change (t : RepairCard) (v : String) (now : Time) :
    ((stampStage t v now).diagnosticada_date ≠ t.diagnosticada_date →
      v = "diagnosticada" ∧ t.diagnosticada_date = none ∧
      (stampStage t v now).diagnosticada_date = some now) ∧
    ((stampStage t v now).para_entregar_date ≠ t.para_entregar_date →
      v = "para_entregar" ∧ t.para_entregar_date = none ∧
      (stampStage t v now).para_entregar_date = some now) ∧
    ((stampStage t v now).entregados_date ≠ t.entregados_date →
      v = "listos" ∧ t.entregados_date = none ∧
      (stampStage t v now).entregados_date = some now) := by
  unfold stampStage
  repeat' split
  all_goals refine ⟨?_, ?_, ?_⟩ <;> intro h <;> simp_all

lemma mem_insertCardOrd {c x : RepairCard} {l : List RepairCard} :
    c ∈ insertCardOrd x l ↔ c = x ∨ c ∈ l := by
  induction l with
  | nil => simp [insertCardOrd]
  | cons d ds ih =>
    unfold insertCardOrd
    split
    · simp
    · simp only [List.mem_cons, ih]
      tauto

lemma mem_orderCards {c : RepairCard} {l : List RepairCard} :
    c ∈ orderCards l ↔ c ∈ l := by
  induction l with
  | nil => simp [orderCards]
  | cons d ds ih =>
    show c ∈ insertCardOrd d (orderCards ds) ↔ _
    simp only [mem_insertCardOrd, ih, List.mem_cons]

lemma setStatusStamped_props (t : RepairCard) (v : String) (now : Time) :
    (setStatusStamped t v now).status = v ∧ (setStatusStamped t v now).id = t.id ∧
    (setStatusStamped t v now).deleted_at = t.deleted_at := by
  unfold setStatusStamped
  obtain ⟨hs, hi, hd⟩ := stampStage_status { t with status := v } v now
  exact ⟨hs, hi, hd⟩

lemma setStatusStamped_stampsOk (t : RepairCard) (v : String) (now : Time) :
    stampsOk now t (setStatusStamped t v now) := by
  unfold setStatusStamped
  exact stampsOk_trans (stampsOk_of_eq rfl rfl rfl)
    (stampStage_stampsOk { t with status := v } v now)

/-- `update_tarjeta` on a present, valid, un-WIP-blocked `columna`: the
committed state after the one `db.commit()`. -/
lemma update_tarjeta_ok_columna {db : DB} {id : Nat} {data : TarjetaUpdate}
    {now : Time} {user : Option (Nat × String)} {v : String} {t0 : RepairCard}
    (hfind : findCard db.cards id = some t0) (hcol : data.columna = some (some v))
    (hvalid : v ∈ getValidStatuses db) (hwip : wipBlockedB db v id = false) :
    update_tarjeta db id data now user =
      .ok { db with
            cards := replaceCard db.cards
              (setStatusStamped (applySimpleFields t0 data db) v now),
            history := histAfter db (applySimpleFields t0 data db) v now user,
            tagLinks := linksAfter db data (applySimpleFields t0 data db).id } := by
  unfold update_tarjeta
  simp only [hfind, hcol]
  rw [if_pos hvalid, if_neg (by simp [hwip])]

/-- `update_tarjeta` rejects a target status outside the configured set. -/
lemma update_tarjeta_invalid {db : DB} {id : Nat} {data : TarjetaUpdate}
    {now : Time} {user : Option (Nat × String)} {v : String} {t0 : RepairCard}
    (hfind : findCard db.cards id = some t0) (hcol : data.columna = some (some v))
    (hinvalid : v ∉ getValidStatuses db) :
    update_tarjeta db id data now user = .error .badRequest := by
  unfold update_tarjeta
  simp only [hfind, hcol]
  rw [if_neg hinvalid]

/-- `update_tarjeta` rejects a WIP-blocked move. -/
lemma update_tarjeta_wip {db : DB} {id : Nat} {data : TarjetaUpdate}
    {now : Time} {user : Option (Nat × String)} {v : String} {t0 : RepairCard}
    (hfind : findCard db.cards id = some t0) (hcol : data.columna = some (some v))
    (hvalid : v ∈ getValidStatuses db) (hwip : wipBlockedB db v id = true) :
    update_tarjeta db id data now user = .error .badRequest := by
  unfold update_tarjeta
  simp only [hfind, hcol]
  rw [if_pos hvalid, if_pos (by simp [hwip])]

/-- `update_tarjeta` without a `columna` field commits the simple-field and
tag writes only. -/
lemma update_tarjeta_nocolumna {db : DB} {id : Nat} {data : TarjetaUpdate}
    {now : Time} {user : Option (Nat × String)} {t0 : RepairCard}
    (hfind : findCard db.cards id = some t0) (hcol : data.columna = none) :
    update_tarjeta db id data now user =
      .ok { db with
            cards := replaceCard db.cards (applySimpleFields t0 data db),
            tagLinks := linksAfter db data (applySimpleFields t0 data db).id } := by
  unfold update_tarjeta
  simp only [hfind, hcol]

/-! ## Concrete example data -/

/-- A freshly created card (the values `create_tarjeta` writes for an empty
request at clock 0), used to build concrete databases. -/
def mkCard (id : Nat) (status : String) : RepairCard where
  id := id
  owner_name := some "Cliente"
  whatsapp_number := some ""
  problem := some "Sin descripción"
  status := status
  start_date := 0
  due_date := 86400
  image_url := none
  has_charger := some "si"
  ingresado_date := 0
  diagnosticada_date := none
  para_entregar_date := none
  entregados_date := none
  technical_notes := none
  priority := "media"
  position := 1
  assigned_to := none
  assigned_name := none
  estimated_cost := none
  final_cost := none
  cost_notes := none
  deleted_at := none
  blocked_at := none
  blocked_reason := none
  blocked_by := none

/-- A configured board column. -/
def mkCol (id : Nat) (key title : String) (pos : Nat) (wip sla : Option Nat) :
    KanbanColumn where
  id := id
  key := key
  title := title
  position := pos
  wip_limit := wip
  sla_hours := sla
  is_done_column := false

/-- One card, no configured columns (the four built-in statuses apply). -/
def dbA : DB where
  cards := [mkCard 1 "ingresado"]
  columns := []
  history := []
  tagLinks := []
  users := []

/-- Card 1 occupies column `"diagnosticada"`, whose WIP limit is 1; card 2
sits in `"ingresado"`. -/
def dbB : DB where
  cards := [mkCard 1 "diagnosticada", mkCard 2 "ingresado"]
  columns := [mkCol 1 "ingresado" "Ingresado" 0 none none,
              mkCol 2 "diagnosticada" "Diagnosticada" 1 (some 1) none]
  history := []
  tagLinks := []
  users := []

/-- A card delivered at clock 0 sitting in `"listos"`, whose column has a
1-hour SLA. -/
def dbC : DB where
  cards := [{ mkCard 1 "listos" with entregados_date := some 0 }]
  columns := [mkCol 1 "listos" "Listos" 3 none (some 1)]
  history := []
  tagLinks := []
  users := []

/-- Cards 1 and 3 both occupy column `"diagnosticada"` (WIP limit 1). -/
def dbD : DB where
  cards := [mkCard 1 "diagnosticada", mkCard 3 "diagnosticada"]
  columns := [mkCol 1 "ingresado" "Ingresado" 0 none none,
              mkCol 2 "diagnosticada" "Diagnosticada" 1 (some 1) none]
  history := []
  tagLinks := []
  users := []

/-- A cache holding a metrics snapshot and a statistics snapshot, both until
clock 100. -/
def cacheA : Cache :=
  [(metricasCacheKey 30, 7, 100), ("estadisticas", 3, 100)]

/-- Deleting the statistics key leaves every other cache key's reads
unchanged. -/
lemma find?_invalidate (c : Cache) (k : String) (hk : k ≠ "estadisticas") :
    (invalidate_stats c).find? (·.1 == k) = c.find? (·.1 == k) := by
  unfold invalidate_stats
  induction c with
  | nil => rfl
  | cons e es ih =>
    by_cases he : e.1 = "estadisticas"
    · have h1 : (decide (e.1 ≠ "estadisticas")) = false := by simp [he]
      have h2 : (e.1 == k) = false := by simp [he]; exact fun h => hk h.symm
      simp only [List.filter_cons, h1, if_neg, Bool.false_eq_true, if_false,
        List.find?_cons, h2, ih]
    · have h1 : (decide (e.1 ≠ "estadisticas")) = true := by simp [he]
      simp only [List.filter_cons, h1, if_true, List.find?_cons]
      cases hek : (e.1 == k)
      · exact ih
      · rfl

/-- On a table with unique primary keys, selecting by a single id yields
exactly the row `find?` returns. -/
lemma filter_single_of_nodup {cards : List RepairCard} {i : Nat} {t : RepairCard}
    (hnd : (cards.map (·.id)).Nodup) (hfind : findCard cards i = some t) :
    cards.filter (fun c => c.id ∈ [i]) = [t] := by
  induction cards with
  | nil => simp [findCard] at hfind
  | cons hd tl ih =>
    rw [List.map_cons, List.nodup_cons] at hnd
    unfold findCard at hfind
    rw [List.find?_cons] at hfind
    cases hhd : (hd.id == i) with
    | true =>
      simp only [hhd] at hfind
      have hhd' : hd.id = i := by simpa using hhd
      have ht : hd = t := by injection hfind
      subst ht
      rw [List.filter_cons, if_pos (by simpa using hhd')]
      have : tl.filter (fun c => c.id ∈ [i]) = [] := by
        rw [List.filter_eq_nil_iff]
        intro c hc
        simp only [List.mem_singleton, decide_eq_true_eq]
        intro hci
        exact hnd.1 (by rw [hhd', ← hci]; exact List.mem_map_of_mem _ hc)
      rw [this]
    | false =>
      simp only [hhd] at hfind
      rw [List.filter_cons, if_neg (by simpa using hhd)]
      exact ih hnd.2 hfind

lemma strippedOrDefault_of_blank {v : Option String} (dflt : String)
    (h : pyStrip (v.getD "") = "") : strippedOrDefault v dflt = dflt := by
  unfold strippedOrDefault
  simp [h]

/-! ## The claims -/

/-- C5: for every single-card update request that is rejected (unknown card,
invalid target status, WIP limit exceeded, …), none of the request's effects
are visible afterwards: the committed database — the card's fields, its tag
links, the `StatusHistory` log and the stage timestamps — and the cache are
exactly the pre-request state.  The handler's only `db.commit()` follows all
validation, and a raised `HTTPException` reaches `get_db`'s `db.close()`,
which rolls the open transaction back. -/
theorem c5_update_rejection_atomic (db : DB) (cache : Cache) (id : Nat)
    (data : TarjetaUpdate) (now : Time) (user : Option (Nat × String)) (e : HttpError)
    (h : (update_tarjeta_endpoint db cache id data now user).error = some e) :
    (update_tarjeta_endpoint db cache id data now user).db = db ∧
    (update_tarjeta_endpoint db cache id data now user).cache = cache := by
  unfold update_tarjeta_endpoint at h ⊢
  cases hu : update_tarjeta db id data now user with
  | ok db' => rw [hu] at h; simp at h
  | error e' => exact ⟨rfl, rfl⟩

/-- C5 witness: an update of card 1 naming the unconfigured status
`"bogus"` is rejected with 400, and the database and cache are unchanged. -/
theorem c5_witness :
    (update_tarjeta_endpoint dbA cacheA 1 { columna := some (some "bogus") } 5 none).error
        = some .badRequest ∧
    (update_tarjeta_endpoint dbA cacheA 1 { columna := some (some "bogus") } 5 none).db = dbA ∧
    (update_tarjeta_endpoint dbA cacheA 1 { columna := some (some "bogus") } 5 none).cache = cacheA := by
  have h : (update_tarjeta_endpoint dbA cacheA 1 { columna := some (some "bogus") } 5 none).error
      = some .badRequest := by decide
  obtain ⟨h1, h2⟩ := c5_update_rejection_atomic dbA cacheA 1
    { columna := some (some "bogus") } 5 none .badRequest h
  exact ⟨h, h1, h2⟩

/-- C6 counterexample: blocking a card is a card mutation, yet afterwards
both the metrics cache key and the statistics cache key still serve their
pre-mutation snapshots within the TTL — nothing was invalidated. -/
theorem c6_counterexample :
    (block_tarjeta_endpoint dbA cacheA 1 true none none 5).error = none ∧
    ((findCard (block_tarjeta_endpoint dbA cacheA 1 true none none 5).db.cards 1).map
       (·.blocked_at) = some (some 5)) ∧
    get_cached (block_tarjeta_endpoint dbA cacheA 1 true none none 5).cache
      (metricasCacheKey 30) 50 = some 7 ∧
    get_cached (block_tarjeta_endpoint dbA cacheA 1 true none none 5).cache
      "estadisticas" 50 = some 3 := by decide

/-- C6 as amended: `invalidate_stats()` — called by create, update, move,
delete and restore, but not by block/unblock — removes exactly the
`"estadisticas"` cache key: reads of that key then miss, reads of every other
key (in particular the `metricas_kanban_{dias}` keys of the metrics endpoint)
are unaffected and keep serving their snapshot until the TTL expires; the
block endpoint leaves the cache entirely untouched. -/
theorem c6_amended :
    (∀ (c : Cache) (now : Time), get_cached (invalidate_stats c) "estadisticas" now = none) ∧
    (∀ (c : Cache) (k : String) (now : Time), k ≠ "estadisticas" →
      get_cached (invalidate_stats c) k now = get_cached c k now) ∧
    (∀ (db : DB) (c : Cache) (id : Nat) (b : Bool) (r : Option String)
        (u : Option Nat) (now : Time),
      (block_tarjeta_endpoint db c id b r u now).cache = c) := by
  refine ⟨?_, ?_, ?_⟩
  · intro c now
    unfold get_cached
    have : (invalidate_stats c).find? (·.1 == "estadisticas") = none := by
      rw [List.find?_eq_none]
      intro x hx
      have hx2 := (List.mem_filter.mp hx).2
      simpa using hx2
    rw [this]
  · intro c k now hk
    unfold get_cached
    rw [find?_invalidate c k hk]
  · intro db c id b r u now
    unfold block_tarjeta_endpoint
    cases hb : block_tarjeta db id b r u now <;> rfl

/-- C6 amended witness at concrete inputs. -/
theorem c6_amended_witness :
    get_cached (invalidate_stats cacheA) "estadisticas" 50 = none ∧
    get_cached (invalidate_stats cacheA) (metricasCacheKey 30) 50 =
      get_cached cacheA (metricasCacheKey 30) 50 ∧
    (block_tarjeta_endpoint dbA cacheA 1 true none none 5).cache = cacheA :=
  ⟨c6_amended.1 cacheA 50,
   c6_amended.2.1 cacheA (metricasCacheKey 30) 50 (by decide),
   c6_amended.2.2 dbA cacheA 1 true none none 5⟩

/-- C8: with every other filter at its default, the card listing contains a
card iff it is in the table and either `include_deleted` was requested or the
card is not soft-deleted; soft-deleted cards are excluded by default and
included under `include_deleted`, live cards are returned in both cases.  The
trash listing contains exactly the soft-deleted cards. -/
theorem c8_soft_delete_listing (db : DB) (includeDeleted : Bool) (c : RepairCard) :
    (c ∈ get_tarjetas_items db includeDeleted {} ↔
      c ∈ db.cards ∧ (includeDeleted = true ∨ c.deleted_at = none)) ∧
    (c ∈ get_trash_items db ↔ c ∈ db.cards ∧ c.deleted_at ≠ none) := by
  constructor
  · unfold get_tarjetas_items
    rw [mem_orderCards, List.mem_filter]
    unfold passesFilters
    simp
  · unfold get_trash_items
    rw [List.mem_filter]
    simp

/-- C9: a card created from a request whose owner name is absent or blank,
whose problem is absent or blank, and whose priority is absent (pydantic
defaults included) has owner `"Cliente"`, problem `"Sin descripción"` and
priority `"media"`. -/
theorem c9_create_defaults (db : DB) (now : Time) (data : TarjetaCreate)
    (hn : pyStrip (data.nombre_propietario.getD "") = "" ∨
          data.nombre_propietario = some "Cliente")
    (hp : pyStrip (data.problema.getD "") = "" ∨ data.problema = some "Sin descripción")
    (hq : data.prioridad = none ∨ data.prioridad = some "media") :
    (create_tarjeta db data now).2.owner_name = some "Cliente" ∧
    (create_tarjeta db data now).2.problem = some "Sin descripción" ∧
    (create_tarjeta db data now).2.priority = "media" := by
  unfold create_tarjeta
  refine ⟨?_, ?_, ?_⟩
  · show some (strippedOrDefault data.nombre_propietario "Cliente") = some "Cliente"
    rcases hn with h | h
    · rw [strippedOrDefault_of_blank _ h]
    · rw [h]; decide
  · show some (strippedOrDefault data.problema "Sin descripción") = some "Sin descripción"
    rcases hp with h | h
    · rw [strippedOrDefault_of_blank _ h]
    · rw [h]; decide
  · show (strOrNone data.prioridad).getD "media" = "media"
    rcases hq with h | h <;> rw [h] <;> decide

/-- C9 witness: creating a card from the empty request body (the pydantic
default record) yields the three defaults. -/
theorem c9_witness :
    (create_tarjeta dbA {} 5).2.owner_name = some "Cliente" ∧
    (create_tarjeta dbA {} 5).2.problem = some "Sin descripción" ∧
    (create_tarjeta dbA {} 5).2.priority = "media" :=
  c9_create_defaults dbA 5 {} (Or.inr rfl) (Or.inr rfl) (Or.inr rfl)

/-- C10: a single-card update that names the card's current status (a no-op
move) is still rejected with 400 whenever that column's WIP limit is already
met by the other non-deleted cards in it — the WIP check runs before the
old-status/new-status comparison. -/
theorem c10_noop_move_wip_rejected (db : DB) (id : Nat) (data : TarjetaUpdate)
    (now : Time) (user : Option (Nat × String)) (t : RepairCard)
    (col : KanbanColumn) (w : Nat)
    (hfind : findCard db.cards id = some t)
    (hcol : data.columna = some (some t.status))
    (hvalid : t.status ∈ getValidStatuses db)
    (hfindcol : db.columns.find? (·.key == t.status) = some col)
    (hw : col.wip_limit = some w) (hw0 : w ≠ 0)
    (hcount : w ≤ wipCount db.cards t.status id) :
    update_tarjeta db id data now user = .error .badRequest := by
  apply update_tarjeta_wip hfind hcol hvalid
  unfold wipBlockedB
  simp only [hfindcol, hw]
  simp [hw0, hcount]

/-- C10 witness: cards 1 and 3 occupy `"diagnosticada"` (WIP limit 1); the
no-op move of card 1 to `"diagnosticada"` is rejected. -/
theorem c10_witness :
    update_tarjeta dbD 1 { columna := some (some "diagnosticada") } 5 none =
      .error .badRequest :=
  c10_noop_move_wip_rejected dbD 1 { columna := some (some "diagnosticada") } 5 none
    (mkCard 1 "diagnosticada") (mkCol 2 "diagnosticada" "Diagnosticada" 1 (some 1) none) 1
    (by decide) rfl (by decide) (by decide) rfl (by decide) (by decide)

/-- C7 counterexample: column `"listos"` has a 1-hour SLA and holds a
non-deleted card that entered it 10 hours ago, yet the metrics report lists
no SLA violation — `"listos"` is missing from the handler's `date_field_map`,
so the column is skipped. -/
theorem c7_counterexample :
    (∃ col ∈ dbC.columns, col.key = "listos" ∧ col.sla_hours = some 1) ∧
    (∃ c ∈ dbC.cards, c.status = "listos" ∧ c.deleted_at = none ∧
      c.entregados_date = some 0 ∧ (0 : Int) < 10 * 3600 - 1 * 3600) ∧
    slaViolations dbC (10 * 3600) = [] := by
  refine ⟨⟨mkCol 1 "listos" "Listos" 3 none (some 1), by decide, by decide, rfl⟩,
          ⟨{ mkCard 1 "listos" with entregados_date := some 0 }, by decide, rfl,
            rfl, rfl, by decide⟩, by decide⟩

/-- C7 as amended: the metrics report lists as SLA violations exactly the
non-deleted cards sitting in a configured column with a non-zero SLA whose
key is one of `"ingresado"`, `"diagnosticada"`, `"para_entregar"` (any other
key, including `"listos"`, is skipped), where the card's stage timestamp for
that column — the first entry into the stage, not the latest — is set and
older than `now` minus the SLA hours. -/
theorem c7_amended (db : DB) (now : Time) (v : SlaViolation) :
    v ∈ slaViolations db now ↔
      ∃ col ∈ db.columns, ∃ h : Nat, col.sla_hours = some h ∧ h ≠ 0 ∧
        ∃ dateOf, slaDateField col.key = some dateOf ∧
          ∃ c ∈ db.cards, c.deleted_at = none ∧ c.status = col.key ∧
            ∃ d, dateOf c = some d ∧ d < now - (h : Int) * 3600 ∧
              v = ⟨c.id, c.owner_name, col.title, h⟩ := by
  unfold slaViolations
  rw [List.mem_flatMap]
  constructor
  · rintro ⟨col, hcolmem, hv⟩
    obtain ⟨hcol, _⟩ := List.mem_filter.mp hcolmem
    rcases hsla : col.sla_hours with _ | h
    · simp only [hsla] at hv; simp at hv
    · simp only [hsla] at hv
      by_cases h0 : h = 0
      · rw [if_pos h0] at hv; simp at hv
      · rw [if_neg h0] at hv
        rcases hdf : slaDateField col.key with _ | dateOf
        · simp only [hdf] at hv; simp at hv
        · simp only [hdf] at hv
          obtain ⟨c, hcmem, hveq⟩ := List.mem_map.mp hv
          obtain ⟨hcmem', hprops⟩ := List.mem_filter.mp hcmem
          simp only [Bool.and_eq_true, beq_iff_eq, Option.isSome_iff_exists,
            decide_eq_true_eq] at hprops
          obtain ⟨⟨⟨hdel, hstat⟩, d, hd⟩, hlt⟩ := hprops
          refine ⟨col, hcol, h, hsla, h0, dateOf, hdf, c, hcmem', hdel, hstat,
            d, hd, ?_, hveq.symm⟩
          rw [hd] at hlt
          simpa using hlt
  · rintro ⟨col, hcol, h, hsla, h0, dateOf, hdf, c, hcmem, hdel, hstat, d, hd, hlt, hveq⟩
    refine ⟨col, List.mem_filter.mpr ⟨hcol, by simp [hsla]⟩, ?_⟩
    simp only [hsla, if_neg h0, hdf]
    refine List.mem_map.mpr ⟨c, List.mem_filter.mpr ⟨hcmem, ?_⟩, hveq.symm⟩
    simp only [Bool.and_eq_true, beq_iff_eq, Option.isSome_iff_exists,
      decide_eq_true_eq]
    exact ⟨⟨⟨hdel, hstat⟩, d, hd⟩, by rw [hd]; simpa using hlt⟩

/-- `PUT /api/tarjetas/batch/positions` with a single item is exactly one
loop iteration followed by the commit. -/
lemma batch_update_positions_single (db : DB) (item : PosItem) (now : Time) :
    batch_update_positions db [item] now = batchPosStep db now db item := by
  unfold batch_update_positions
  cases h : batchPosStep db now db item <;> simp [List.foldlM, h]

/-- C1 counterexample: the batch `"move"` action never consults the
configured columns: moving card 1 to the unconfigured status `"bogus"`
succeeds and leaves the card with a status outside the configured set. -/
theorem c1_counterexample :
    (batch_operations dbA [1] "move" (some "bogus") "Batch" "" 100).map
      (fun db' => ((findCard db'.cards 1).map (·.status),
                   decide ("bogus" ∈ getValidStatuses db'))) =
    .ok (some "bogus", false) := by decide

/-- C1 as amended: only the single-card update validates the target status:
naming a status outside the configured column set fails (400, or 404 for a
missing card), and on success the card with the updated id carries a status
inside the configured set.  The batch position update and the batch move
perform no such validation (see the counterexample). -/
theorem c1_single_update_validates (db : DB) (id : Nat) (data : TarjetaUpdate)
    (now : Time) (user : Option (Nat × String)) (v : String)
    (hnd : (db.cards.map (·.id)).Nodup)
    (hcol : data.columna = some (some v)) :
    (v ∉ getValidStatuses db → ∃ e, update_tarjeta db id data now user = .error e) ∧
    (∀ db', update_tarjeta db id data now user = .ok db' →
      ∀ c' ∈ db'.cards, c'.id = id → c'.status ∈ getValidStatuses db) := by
  constructor
  · intro hinvalid
    cases hfind : findCard db.cards id with
    | none =>
      refine ⟨.notFound, ?_⟩
      unfold update_tarjeta
      simp only [hfind]
    | some t0 => exact ⟨.badRequest, update_tarjeta_invalid hfind hcol hinvalid⟩
  · intro db' hok c' hc' hcid
    cases hfind : findCard db.cards id with
    | none =>
      unfold update_tarjeta at hok
      simp only [hfind] at hok
      cases hok
    | some t0 =>
      by_cases hvalid : v ∈ getValidStatuses db
      · by_cases hwip : wipBlockedB db v id = true
        · rw [update_tarjeta_wip hfind hcol hvalid hwip] at hok
          simp at hok
        · rw [update_tarjeta_ok_columna hfind hcol hvalid
            (Bool.not_eq_true _ ▸ hwip)] at hok
          have hdb' := (Except.ok.inj hok).symm
          subst hdb'
          obtain ⟨ht0mem, ht0id⟩ := findCard_mem hfind
          have hid2 : (setStatusStamped (applySimpleFields t0 data db) v now).id
              = t0.id := by
            rw [(setStatusStamped_props _ _ _).2.1, applySimpleFields_id]
          rcases replaceCard_pair hnd ht0mem hc' (by rw [hcid, ht0id]) with
            ⟨hct, _⟩ | ⟨_, hne⟩
          · rw [hct, (setStatusStamped_props _ _ _).1]
            exact hvalid
          · exact absurd hid2.symm hne
      · rw [update_tarjeta_invalid hfind hcol hvalid] at hok
        simp at hok

/-- C1 amended witness: the single-card update to `"bogus"` fails on `dbA`. -/
theorem c1_witness :
    ∃ e, update_tarjeta dbA 1 { columna := some (some "bogus") } 5 none = .error e :=
  (c1_single_update_validates dbA 1 { columna := some (some "bogus") } 5 none
    "bogus" (by decide) rfl).1 (by decide)

/-- C2 counterexample: column `"diagnosticada"` has WIP limit 1 and already
holds card 1 (non-deleted), yet the batch `"move"` of card 2 into it succeeds
— the batch endpoint applies no WIP check. -/
theorem c2_counterexample :
    (∃ col ∈ dbB.columns, col.key = "diagnosticada" ∧ col.wip_limit = some 1) ∧
    wipCount dbB.cards "diagnosticada" 2 = 1 ∧
    (batch_operations dbB [2] "move" (some "diagnosticada") "Batch" "" 100).map
      (fun db' => (findCard db'.cards 2).map (·.status)) =
    .ok (some "diagnosticada") := by
  refine ⟨⟨mkCol 2 "diagnosticada" "Diagnosticada" 1 (some 1) none,
    by decide, rfl, rfl⟩, by decide, by decide⟩

/-- C2 as amended: the single-card update and the batch position update
enforce the WIP limit — a move into a column whose non-zero limit is already
met by the other non-deleted cards is rejected with 400, and otherwise the
single-card move goes through and sets the card's status — but the batch
`"move"` action performs no WIP check at all (see the counterexample). -/
theorem c2_wip_enforcement :
    (∀ (db : DB) (id : Nat) (data : TarjetaUpdate) (now : Time)
       (user : Option (Nat × String)) (v : String) (t : RepairCard)
       (col : KanbanColumn) (w : Nat),
       findCard db.cards id = some t → data.columna = some (some v) →
       v ∈ getValidStatuses db →
       db.columns.find? (·.key == v) = some col → col.wip_limit = some w → w ≠ 0 →
       w ≤ wipCount db.cards v id →
       update_tarjeta db id data now user = .error .badRequest) ∧
    (∀ (db : DB) (id : Nat) (data : TarjetaUpdate) (now : Time)
       (user : Option (Nat × String)) (v : String) (t : RepairCard),
       (db.cards.map (·.id)).Nodup →
       findCard db.cards id = some t → data.columna = some (some v) →
       v ∈ getValidStatuses db → wipBlockedB db v id = false →
       ∃ db', update_tarjeta db id data now user = .ok db' ∧
         ∀ c' ∈ db'.cards, c'.id = id → c'.status = v) ∧
    (∀ (db : DB) (item : PosItem) (now : Time) (t : RepairCard),
       findCard db.cards item.id = some t → t.status ≠ item.columna →
       wipBlockedB db item.columna item.id = true →
       batch_update_positions db [item] now = .error .badRequest) := by
  refine ⟨?_, ?_, ?_⟩
  · intro db id data now user v t col w hfind hcol hvalid hfindcol hw hw0 hcount
    apply update_tarjeta_wip hfind hcol hvalid
    unfold wipBlockedB
    simp only [hfindcol, hw]
    simp [hw0, hcount]
  · intro db id data now user v t hnd hfind hcol hvalid hwip
    refine ⟨_, update_tarjeta_ok_columna hfind hcol hvalid hwip, ?_⟩
    intro c' hc' hcid
    obtain ⟨htmem, htid⟩ := findCard_mem hfind
    have hid2 : (setStatusStamped (applySimpleFields t data db) v now).id = t.id := by
      rw [(setStatusStamped_props _ _ _).2.1, applySimpleFields_id]
    rcases replaceCard_pair hnd htmem hc' (by rw [hcid, htid]) with
      ⟨hct, _⟩ | ⟨_, hne⟩
    · rw [hct, (setStatusStamped_props _ _ _).1]
    · exact absurd hid2.symm hne
  · intro db item now t hfind hne hwip
    rw [batch_update_positions_single]
    unfold batchPosStep
    simp only [hfind]
    rw [if_pos hne, if_pos hwip]

/-- C2 amended witness: on `dbB` (limit 1 on `"diagnosticada"`, already
occupied by card 1) the single update and the single-item batch position
update of card 2 into `"diagnosticada"` are both rejected, while the move of
card 2 to `"ingresado"` (no limit) goes through. -/
theorem c2_witness :
    update_tarjeta dbB 2 { columna := some (some "diagnosticada") } 5 none =
      .error .badRequest ∧
    batch_update_positions dbB [⟨2, "diagnosticada", 0⟩] 5 = .error .badRequest ∧
    (∃ db', update_tarjeta dbB 2 { columna := some (some "ingresado") } 5 none =
        .ok db' ∧ ∀ c' ∈ db'.cards, c'.id = 2 → c'.status = "ingresado") :=
  ⟨c2_wip_enforcement.1 dbB 2 { columna := some (some "diagnosticada") } 5 none
     "diagnosticada" (mkCard 2 "ingresado")
     (mkCol 2 "diagnosticada" "Diagnosticada" 1 (some 1) none) 1
     (by decide) rfl (by decide) (by decide) rfl (by decide) (by decide),
   c2_wip_enforcement.2.2 dbB ⟨2, "diagnosticada", 0⟩ 5 (mkCard 2 "ingresado")
     (by decide) (by decide) (by decide),
   c2_wip_enforcement.2.1 dbB 2 { columna := some (some "ingresado") } 5 none
     "ingresado" (mkCard 2 "ingresado") (by decide) (by decide) rfl
     (by decide) (by decide)⟩

/-- C3 counterexample: card 1 already sits in `"ingresado"`, yet the batch
`"move"` naming `"ingresado"` appends a `StatusHistory` row (with
`old_status = new_status`) even though the status did not change. -/
theorem c3_counterexample :
    ((findCard dbA.cards 1).map (·.status) = some "ingresado") ∧
    (batch_operations dbA [1] "move" (some "ingresado") "Batch" "" 100).map
      (fun db' => (db'.history.map (fun h => (h.tarjeta_id, h.old_status, h.new_status)),
                   (findCard db'.cards 1).map (·.status))) =
    .ok ([(1, some "ingresado", "ingresado")], some "ingresado") := by decide

/-- C3 as amended: the single-card update and the batch position update
append exactly one `StatusHistory` row when the named status differs from the
card's current status and none when it is the same, but the batch `"move"`
action appends one row per card unconditionally, including when the named
status equals the current status (see the counterexample). -/
theorem c3_history_append :
    (∀ (db : DB) (id : Nat) (data : TarjetaUpdate) (now : Time)
       (user : Option (Nat × String)) (v : String) (t : RepairCard) (db' : DB),
       findCard db.cards id = some t → data.columna = some (some v) →
       update_tarjeta db id data now user = .ok db' →
       (t.status ≠ v → db'.history = db.history ++
         [{ tarjeta_id := t.id, old_status := some t.status, new_status := v,
            changed_at := now, changed_by := user.map (·.1),
            changed_by_name := user.map (·.2) }]) ∧
       (t.status = v → db'.history = db.history)) ∧
    (∀ (db : DB) (item : PosItem) (now : Time) (t : RepairCard),
       findCard db.cards item.id = some t →
       (t.status = item.columna →
         ∃ db', batch_update_positions db [item] now = .ok db' ∧
           db'.history = db.history) ∧
       (t.status ≠ item.columna → wipBlockedB db item.columna item.id = false →
         ∃ db', batch_update_positions db [item] now = .ok db' ∧
           db'.history = db.history ++
             [{ tarjeta_id := t.id, old_status := some t.status,
                new_status := item.columna, changed_at := now,
                changed_by := none, changed_by_name := none }])) ∧
    (∀ (db : DB) (i : Nat) (v userName assignName : String) (now : Time)
       (t : RepairCard),
       (db.cards.map (·.id)).Nodup →
       findCard db.cards i = some t → v ≠ "" →
       ∃ db', batch_operations db [i] "move" (some v) userName assignName now = .ok db' ∧
         db'.history = db.history ++
           [{ tarjeta_id := t.id, old_status := some t.status, new_status := v,
              changed_at := now, changed_by := none,
              changed_by_name := some userName }]) := by
  refine ⟨?_, ?_, ?_⟩
  · intro db id data now user v t db' hfind hcol hok
    by_cases hvalid : v ∈ getValidStatuses db
    · by_cases hwip : wipBlockedB db v id = true
      · rw [update_tarjeta_wip hfind hcol hvalid hwip] at hok
        simp at hok
      · rw [update_tarjeta_ok_columna hfind hcol hvalid
          (Bool.not_eq_true _ ▸ hwip)] at hok
        have hdb' := (Except.ok.inj hok).symm
        subst hdb'
        constructor
        · intro hne
          show histAfter db (applySimpleFields t data db) v now user = _
          unfold histAfter
          simp only [applySimpleFields_status, applySimpleFields_id]
          rw [if_pos hne]
        · intro heq
          show histAfter db (applySimpleFields t data db) v now user = _
          unfold histAfter
          simp only [applySimpleFields_status, applySimpleFields_id]
          rw [if_neg (fun hq => hq heq)]
    · rw [update_tarjeta_invalid hfind hcol hvalid] at hok
      simp at hok
  · intro db item now t hfind
    constructor
    · intro heq
      rw [batch_update_positions_single]
      unfold batchPosStep
      simp only [hfind]
      rw [if_neg (fun hq => hq heq)]
      exact ⟨_, rfl, rfl⟩
    · intro hne hwipf
      rw [batch_update_positions_single]
      unfold batchPosStep
      simp only [hfind]
      rw [if_pos hne, if_neg (by simp [hwipf])]
      refine ⟨_, rfl, ?_⟩
      have hid : (setStatusStamped { t with position := (item.posicion : Int) }
          item.columna now).id = t.id := by
        rw [(setStatusStamped_props _ _ _).2.1]
      rw [hid]
  · intro db i v userName assignName now t hnd hfind hv
    unfold batch_operations
    rw [if_neg (by simp)]
    rw [filter_single_of_nodup hnd hfind]
    rw [if_neg (by simp)]
    simp only [List.foldl]
    unfold batchOpStep
    obtain ⟨htmem, htid⟩ := findCard_mem hfind
    simp only [htid, hfind]
    have hcond : (("move" == "move") && (((some v).getD "") != "")) = true := by
      simp [hv]
    simp only [Option.getD_some] at hcond ⊢
    simp only [bind, Except.bind]
    rw [if_pos hcond]
    refine ⟨_, rfl, ?_⟩
    simp only [hfind, Option.getD_some]
    rw [(setStatusStamped_props t v now).2.1, htid]

/-- C3 amended witness: on `dbA` (card 1 in `"ingresado"`, empty history) a
single-card move to `"diagnosticada"` logs exactly one row, a single-item
batch position move logs one row, and a batch `"move"` naming the current
status still logs one row. -/
theorem c3_witness :
    (update_tarjeta dbA 1 { columna := some (some "diagnosticada") } 7 none).map
        (·.history) =
      .ok [{ tarjeta_id := 1, old_status := some "ingresado",
             new_status := "diagnosticada", changed_at := 7, changed_by := none,
             changed_by_name := none }] ∧
    (∃ db', batch_update_positions dbA [⟨1, "diagnosticada", 0⟩] 7 = .ok db' ∧
       db'.history = dbA.history ++
         [⟨1, some "ingresado", "diagnosticada", 7, none, none⟩]) ∧
    (∃ db', batch_operations dbA [1] "move" (some "ingresado") "Batch" "" 7 = .ok db' ∧
       db'.history = dbA.history ++
         [⟨1, some "ingresado", "ingresado", 7, none, some "Batch"⟩]) := by
  refine ⟨?_, ?_, ?_⟩
  · have hok := @update_tarjeta_ok_columna dbA 1
      { columna := some (some "diagnosticada") } 7 none
      "diagnosticada" (mkCard 1 "ingresado") (by decide) rfl
      (by decide) (by decide)
    have h1 := (c3_history_append.1 dbA 1 { columna := some (some "diagnosticada") }
      7 none "diagnosticada" (mkCard 1 "ingresado") _ (by decide) rfl hok).1 (by decide)
    rw [hok]
    exact congrArg Except.ok (h1.trans (by decide))
  · exact (c3_history_append.2.1 dbA ⟨1, "diagnosticada", 0⟩ 7 (mkCard 1 "ingresado")
      (by decide)).2 (by decide) (by decide)
  · exact c3_history_append.2.2 dbA 1 "ingresado" "Batch" "" 7 (mkCard 1 "ingresado")
      (by decide) (by decide) (by decide)

/-- `update_tarjeta` with an explicit `"columna": null` is rejected
(`None not in valid_statuses`). -/
lemma update_tarjeta_nullcol {db : DB} {id : Nat} {data : TarjetaUpdate}
    {now : Time} {user : Option (Nat × String)} {t0 : RepairCard}
    (hfind : findCard db.cards id = some t0) (hcol : data.columna = some none) :
    update_tarjeta db id data now user = .error .badRequest := by
  unfold update_tarjeta
  simp only [hfind, hcol]

/-- `POST /api/tarjetas/batch` with `action="move"`, one existing id and a
non-empty value: the committed state — no status validation, no WIP check,
one unconditional history row. -/
lemma batch_move_single {db : DB} {i : Nat} {v : String}
    (userName assignName : String) {now : Time} {t : RepairCard}
    (hnd : (db.cards.map (·.id)).Nodup)
    (hfind : findCard db.cards i = some t) (hv : v ≠ "") :
    batch_operations db [i] "move" (some v) userName assignName now =
      .ok { db with
            cards := replaceCard db.cards (setStatusStamped t v now),
            history := db.history ++
              [{ tarjeta_id := (setStatusStamped t v now).id,
                 old_status := some t.status, new_status := v,
                 changed_at := now, changed_by := none,
                 changed_by_name := some userName }] } := by
  unfold batch_operations
  rw [if_neg (by simp)]
  rw [filter_single_of_nodup hnd hfind]
  rw [if_neg (by simp)]
  simp only [List.foldl]
  unfold batchOpStep
  obtain ⟨htmem, htid⟩ := findCard_mem hfind
  simp only [htid, hfind]
  have hcond : (("move" == "move") && (((some v).getD "") != "")) = true := by
    simp [hv]
  simp only [Option.getD_some] at hcond ⊢
  simp only [bind, Except.bind]
  rw [if_pos hcond]
  simp only [hfind, Option.getD_some]
  rfl

/-- The loop invariant for the batch handlers: the session's card rows keep
the committed ids, and every pending row respects the stage-timestamp
discipline relative to its committed version. -/
def stampsInv (db0 : DB) (now : Time) (acc : DB) : Prop :=
  acc.cards.map (·.id) = db0.cards.map (·.id) ∧
  ∀ c ∈ db0.cards, ∀ c' ∈ acc.cards, c'.id = c.id → stampsOk now c c'

lemma stampsInv_init (db0 : DB) (now : Time)
    (hnd : (db0.cards.map (·.id)).Nodup) : stampsInv db0 now db0 := by
  refine ⟨rfl, ?_⟩
  intro c hc c' hc' hid
  have : c' = c := List.inj_on_of_nodup_map hnd hc' hc hid
  rw [this]
  exact stampsOk_refl now c

lemma batchPosStep_stampsInv {db0 : DB} {now : Time} {item : PosItem}
    {acc acc' : DB} (hinv : stampsInv db0 now acc)
    (h : batchPosStep db0 now acc item = .ok acc') : stampsInv db0 now acc' := by
  unfold batchPosStep at h
  cases hfind : findCard acc.cards item.id with
  | none =>
    simp only [hfind] at h
    exact (Except.ok.inj h) ▸ hinv
  | some t =>
    simp only [hfind] at h
    obtain ⟨htmem, htid⟩ := findCard_mem hfind
    by_cases hst : t.status ≠ item.columna
    · rw [if_pos hst] at h
      by_cases hwip : wipBlockedB db0 item.columna item.id = true
      · rw [if_pos hwip] at h
        cases h
      · rw [if_neg hwip] at h
        have hacc' := (Except.ok.inj h).symm
        subst hacc'
        constructor
        · rw [map_id_replaceCard]
          exact hinv.1
        · intro c hc c' hc' hid
          rcases mem_replaceCard hc' with hct | hcmem
          · have hid2 : (setStatusStamped { t with position := (item.posicion : Int) }
                item.columna now).id = t.id := by
              rw [(setStatusStamped_props _ _ _).2.1]
            have htc : t.id = c.id := by rw [← hid, hct, hid2]
            have h1 : stampsOk now c t := hinv.2 c hc t htmem htc
            have h2 : stampsOk now t (setStatusStamped
                { t with position := (item.posicion : Int) } item.columna now) :=
              stampsOk_trans (stampsOk_of_eq rfl rfl rfl)
                (setStatusStamped_stampsOk
                  { t with position := (item.posicion : Int) } item.columna now)
            rw [hct]
            exact stampsOk_trans h1 h2
          · exact hinv.2 c hc c' hcmem hid
    · rw [if_neg hst] at h
      have hacc' := (Except.ok.inj h).symm
      subst hacc'
      constructor
      · rw [map_id_replaceCard]
        exact hinv.1
      · intro c hc c' hc' hid
        rcases mem_replaceCard hc' with hct | hcmem
        · have htc : t.id = c.id := by rw [← hid, hct]
          have h1 : stampsOk now c t := hinv.2 c hc t htmem htc
          rw [hct]
          exact stampsOk_trans h1 (stampsOk_of_eq rfl rfl rfl)
        · exact hinv.2 c hc c' hcmem hid

lemma batchPos_foldlM_inv {db0 : DB} {now : Time} :
    ∀ (items : List PosItem) (acc db' : DB), stampsInv db0 now acc →
      List.foldlM (batchPosStep db0 now) acc items = .ok db' →
      stampsInv db0 now db' := by
  intro items
  induction items with
  | nil =>
    intro acc db' hinv h
    simp only [List.foldlM] at h
    exact (Except.ok.inj h) ▸ hinv
  | cons item rest ih =>
    intro acc db' hinv h
    rw [List.foldlM_cons] at h
    cases hstep : batchPosStep db0 now acc item with
    | error e => rw [hstep] at h; cases h
    | ok acc₁ =>
      rw [hstep] at h
      exact ih acc₁ db' (batchPosStep_stampsInv hinv hstep) h

/-- C4: the stage timestamps obey the first-entry discipline under the
status-setting operations.  Across a single-card update, a batch position
update over any item list, and a single-card batch move: a non-null
`diagnosticada_date` / `para_entregar_date` / `entregados_date` is never
overwritten or cleared, and a null one either stays null or receives the
operation's clock.  Moreover a single-card update changes a stage timestamp
only when the named target status is that stage (so the card enters it), the
field was null, and the card's final status is the stage. -/
theorem c4_stage_timestamps :
    (∀ (db : DB) (id : Nat) (data : TarjetaUpdate) (now : Time)
       (user : Option (Nat × String)) (db' : DB),
       (db.cards.map (·.id)).Nodup →
       update_tarjeta db id data now user = .ok db' →
       ∀ c ∈ db.cards, ∀ c' ∈ db'.cards, c'.id = c.id → stampsOk now c c') ∧
    (∀ (db : DB) (items : List PosItem) (now : Time) (db' : DB),
       (db.cards.map (·.id)).Nodup →
       batch_update_positions db items now = .ok db' →
       ∀ c ∈ db.cards, ∀ c' ∈ db'.cards, c'.id = c.id → stampsOk now c c') ∧
    (∀ (db : DB) (i : Nat) (v userName assignName : String) (now : Time) (db' : DB),
       (db.cards.map (·.id)).Nodup → v ≠ "" →
       batch_operations db [i] "move" (some v) userName assignName now = .ok db' →
       ∀ c ∈ db.cards, ∀ c' ∈ db'.cards, c'.id = c.id → stampsOk now c c') ∧
    (∀ (db : DB) (id : Nat) (data : TarjetaUpdate) (now : Time)
       (user : Option (Nat × String)) (v : String) (t : RepairCard) (db' : DB),
       (db.cards.map (·.id)).Nodup →
       findCard db.cards id = some t → data.columna = some (some v) →
       update_tarjeta db id data now user = .ok db' →
       ∀ c' ∈ db'.cards, c'.id = id →
         (c'.diagnosticada_date ≠ t.diagnosticada_date →
            v = "diagnosticada" ∧ t.diagnosticada_date = none ∧
            c'.diagnosticada_date = some now ∧ c'.status = "diagnosticada") ∧
         (c'.para_entregar_date ≠ t.para_entregar_date →
            v = "para_entregar" ∧ t.para_entregar_date = none ∧
            c'.para_entregar_date = some now ∧ c'.status = "para_entregar") ∧
         (c'.entregados_date ≠ t.entregados_date →
            v = "listos" ∧ t.entregados_date = none ∧
            c'.entregados_date = some now ∧ c'.status = "listos")) := by
  refine ⟨?_, ?_, ?_, ?_⟩
  · intro db id data now user db' hnd hok c hc c' hc' hid
    cases hfind : findCard db.cards id with
    | none =>
      unfold update_tarjeta at hok
      simp only [hfind] at hok
      cases hok
    | some t0 =>
      have hcore := applySimpleFields_coreEq t0 data db
      obtain ⟨ht0mem, ht0id⟩ := findCard_mem hfind
      have hstamp01 : stampsOk now t0 (applySimpleFields t0 data db) :=
        stampsOk_of_eq hcore.2.1 hcore.2.2.1 hcore.2.2.2.1
      cases hcol : data.columna with
      | none =>
        rw [update_tarjeta_nocolumna hfind hcol] at hok
        have hdb' := (Except.ok.inj hok).symm
        subst hdb'
        rcases replaceCard_pair hnd hc hc' hid with ⟨hct, hcid⟩ | ⟨hcc, _⟩
        · have hct0 : c = t0 :=
            List.inj_on_of_nodup_map hnd hc ht0mem
              (by rw [hcid, hcore.2.2.2.2.1])
          rw [hct, hct0]
          exact hstamp01
        · rw [hcc]
          exact stampsOk_refl now c
      | some nuevoOpt =>
        cases nuevoOpt with
        | none =>
          rw [update_tarjeta_nullcol hfind hcol] at hok
          cases hok
        | some v =>
          by_cases hvalid : v ∈ getValidStatuses db
          · by_cases hwip : wipBlockedB db v id = true
            · rw [update_tarjeta_wip hfind hcol hvalid hwip] at hok
              cases hok
            · rw [update_tarjeta_ok_columna hfind hcol hvalid
                (Bool.not_eq_true _ ▸ hwip)] at hok
              have hdb' := (Except.ok.inj hok).symm
              subst hdb'
              rcases replaceCard_pair hnd hc hc' hid with ⟨hct, hcid⟩ | ⟨hcc, _⟩
              · have hct0 : c = t0 :=
                  List.inj_on_of_nodup_map hnd hc ht0mem
                    (by rw [hcid, (setStatusStamped_props _ _ _).2.1,
                            hcore.2.2.2.2.1])
                rw [hct, hct0]
                exact stampsOk_trans hstamp01
                  (setStatusStamped_stampsOk (applySimpleFields t0 data db) v now)
              · rw [hcc]
                exact stampsOk_refl now c
          · rw [update_tarjeta_invalid hfind hcol hvalid] at hok
            cases hok
  · intro db items now db' hnd hok c hc c' hc' hid
    unfold batch_update_positions at hok
    exact (batchPos_foldlM_inv items db db' (stampsInv_init db now hnd) hok).2
      c hc c' hc' hid
  · intro db i v userName assignName now db' hnd hv hok c hc c' hc' hid
    cases hfind : findCard db.cards i with
    | none =>
      unfold batch_operations at hok
      rw [if_neg (by simp)] at hok
      have hemp : db.cards.filter (fun c => c.id ∈ [i]) = [] := by
        rw [List.filter_eq_nil_iff]
        intro x hx
        have := List.find?_eq_none.mp hfind x hx
        simpa using this
      rw [hemp, if_pos rfl] at hok
      cases hok
    | some t =>
      rw [batch_move_single userName assignName hnd hfind hv] at hok
      have hdb' := (Except.ok.inj hok).symm
      subst hdb'
      obtain ⟨htmem, htid⟩ := findCard_mem hfind
      rcases replaceCard_pair hnd hc hc' hid with ⟨hct, hcid⟩ | ⟨hcc, _⟩
      · have hct0 : c = t :=
          List.inj_on_of_nodup_map hnd hc htmem
            (by rw [hcid, (setStatusStamped_props _ _ _).2.1])
        rw [hct, hct0]
        exact setStatusStamped_stampsOk t v now
      · rw [hcc]
        exact stampsOk_refl now c
  · intro db id data now user v t db' hnd hfind hcol hok c' hc' hcid
    have hcore := applySimpleFields_coreEq t data db
    obtain ⟨htmem, htid⟩ := findCard_mem hfind
    by_cases hvalid : v ∈ getValidStatuses db
    · by_cases hwip : wipBlockedB db v id = true
      · rw [update_tarjeta_wip hfind hcol hvalid hwip] at hok
        cases hok
      · rw [update_tarjeta_ok_columna hfind hcol hvalid
          (Bool.not_eq_true _ ▸ hwip)] at hok
        have hdb' := (Except.ok.inj hok).symm
        subst hdb'
        have hid2 : (setStatusStamped (applySimpleFields t data db) v now).id
            = t.id := by
          rw [(setStatusStamped_props _ _ _).2.1, hcore.2.2.2.2.1]
        rcases replaceCard_pair hnd htmem hc' (by rw [hcid, htid]) with
          ⟨hct, _⟩ | ⟨_, hne⟩
        · subst hct
          have hchange := stampStage_change
            { applySimpleFields t data db with status := v } v now
          have hstat : (setStatusStamped (applySimpleFields t data db) v now).status
              = v := (setStatusStamped_props _ _ _).1
          refine ⟨?_, ?_, ?_⟩
          · intro hne
            have hne' : (setStatusStamped (applySimpleFields t data db) v now).diagnosticada_date
                ≠ ({ applySimpleFields t data db with status := v } : RepairCard).diagnosticada_date := by
              show _ ≠ (applySimpleFields t data db).diagnosticada_date
              rw [hcore.2.1]
              exact hne
            obtain ⟨hv, hnone, hsome⟩ := hchange.1 hne'
            refine ⟨hv, ?_, hsome, by rw [hstat, hv]⟩
            rw [← hcore.2.1]
            exact hnone
          · intro hne
            have hne' : (setStatusStamped (applySimpleFields t data db) v now).para_entregar_date
                ≠ ({ applySimpleFields t data db with status := v } : RepairCard).para_entregar_date := by
              show _ ≠ (applySimpleFields t data db).para_entregar_date
              rw [hcore.2.2.1]
              exact hne
            obtain ⟨hv, hnone, hsome⟩ := hchange.2.1 hne'
            refine ⟨hv, ?_, hsome, by rw [hstat, hv]⟩
            rw [← hcore.2.2.1]
            exact hnone
          · intro hne
            have hne' : (setStatusStamped (applySimpleFields t data db) v now).entregados_date
                ≠ ({ applySimpleFields t data db with status := v } : RepairCard).entregados_date := by
              show _ ≠ (applySimpleFields t data db).entregados_date
              rw [hcore.2.2.2.1]
              exact hne
            obtain ⟨hv, hnone, hsome⟩ := hchange.2.2 hne'
            refine ⟨hv, ?_, hsome, by rw [hstat, hv]⟩
            rw [← hcore.2.2.2.1]
            exact hnone
        · exact absurd hid2.symm hne
    · rw [update_tarjeta_invalid hfind hcol hvalid] at hok
      cases hok

/-- C4 witness: moving card 1 of `dbA` (all stage dates null) to
`"diagnosticada"` at clock 7 respects the stage-timestamp discipline, and the
resulting card's `diagnosticada_date` is 7 while the other stage dates stay
null. -/
theorem c4_witness :
    stampsOk 7 (mkCard 1 "ingresado")
      (setStatusStamped (applySimpleFields (mkCard 1 "ingresado")
        { columna := some (some "diagnosticada") } dbA) "diagnosticada" 7) ∧
    (setStatusStamped (applySimpleFields (mkCard 1 "ingresado")
      { columna := some (some "diagnosticada") } dbA) "diagnosticada" 7).diagnosticada_date
        = some 7 ∧
    (setStatusStamped (applySimpleFields (mkCard 1 "ingresado")
      { columna := some (some "diagnosticada") } dbA) "diagnosticada" 7).entregados_date
        = none := by
  have hok := @update_tarjeta_ok_columna dbA 1
    { columna := some (some "diagnosticada") } 7 none
    "diagnosticada" (mkCard 1 "ingresado") (by decide) rfl
    (by decide) (by decide)
  refine ⟨?_, by decide, by decide⟩
  exact c4_stage_timestamps.1 dbA 1 { columna := some (some "diagnosticada") } 7
    none _ (by decide) hok (mkCard 1 "ingresado") (by decide) _ (by decide) (by decide)

end Reparaciones
